import Mathlib

/-!
# Bot command buffer, perception queue and deferred freeing

A shallow embedding of `src/sgame/sg_bot.h` (the inline members of
`botMemory_t` that write the bot's `usercmd_t`, and the `enemyQueue_t` ring)
and of `src/sgame/components/DeferredFreeingComponent.h`.

Conventions:
* C `int` fields are `Int`; `signed char` fields are `Int` kept in
  `-128 .. 127`, and the one place where a value is narrowed back to
  `signed char` (`ReverseLateralSpeed`) wraps explicitly modulo `2 ^ 8`;
* a method `void f(args)` of `botMemory_t` becomes a function
  `botMemory_t → botMemory_t` taking the receiver last;
* what the headers only name (the engine's `usercmd_t`, its button helpers,
  the `BUTTON_*` numbers, `weaponMode_t`, `ASSERT`, and the number of sightings
  the queue code keeps) is either a parameter or a definition whose comment
  says that it is modelled from the specification; the bodies of the
  component's methods are not embedded.
-/

namespace Unvanquished

/-! ## Data model -/

/-- The macro `#define MAX_ENEMY_QUEUE 32`. -/
def MAX_ENEMY_QUEUE : Nat := 32

/-- The `struct enemyQueueElement_t`: the entity pointer is an entity number, or
`none` for the null pointer. -/
structure enemyQueueElement_t where
  ent : Option Nat
  timeFound : Int
deriving DecidableEq

/-- The `struct enemyQueue_t`: a fixed array of `MAX_ENEMY_QUEUE` elements and the
two `int` indices `front` and `back`. -/
structure enemyQueue_t where
  enemys : Fin MAX_ENEMY_QUEUE → enemyQueueElement_t
  front : Int
  back : Int

/-- Modelled from the spec: the engine's `usercmd_t` is declared outside
these headers. The specification describes the command buffer as movement
axes (signed small-range speeds), aim angles and a button bitmask; the three
axes are the `signed char` fields written by `SetForwardSpeed`,
`SetLateralSpeed` and `SetVerticalSpeed`, the angles are the three entries
written by `AimAt`, and `buttons` is the bitmask, bit `i` being button `i`. -/
structure usercmd_t where
  angles : Int × Int × Int
  forwardmove : Int
  rightmove : Int
  upmove : Int
  buttons : Nat
deriving DecidableEq

/-- The `struct botMemory_t`, with the members that carry integers or the
structures above. The members left out (team, goal, skill, best enemy and
building tables, behaviour tree pointers, future aim vector, navigation
command, stuck position) are pointers, floats or types declared elsewhere;
none of the members below reads or writes them. -/
structure botMemory_t where
  enemyQueue : enemyQueue_t
  enemyLastSeen : Int
  numRunningNodes : Int
  futureAimTime : Int
  futureAimTimeInterval : Int
  m_cmdBuffer : usercmd_t
  lastThink : Int
  stuckTime : Int
  spawnTime : Int

/-- The `enum botMemory_t::FakeButton`. -/
inductive FakeButton where
  | FB_BUTTON_ATTACK
  | FB_BUTTON_ATTACK2
  | FB_BUTTON_ATTACK3
  | FB_BUTTON_WALKING
  | FB_BUTTON_SPRINT
  | FB_BUTTON_GESTURE
  | FB_BUTTON_ACTIVATE
deriving DecidableEq

/-- The engine's `BUTTON_*` bit numbers, which initialise the enumerators of
`FakeButton`. They are defined outside these headers and are taken as a
parameter. -/
structure buttonBits where
  BUTTON_ATTACK : Nat
  BUTTON_ATTACK2 : Nat
  BUTTON_ATTACK3 : Nat
  BUTTON_WALKING : Nat
  BUTTON_SPRINT : Nat
  BUTTON_GESTURE : Nat
  BUTTON_ACTIVATE : Nat
deriving DecidableEq

/-- The integer value of an enumerator of `FakeButton`
(`FB_BUTTON_ATTACK = BUTTON_ATTACK`, and so on). -/
def FakeButton.toBit (k : buttonBits) : FakeButton → Nat
  | .FB_BUTTON_ATTACK => k.BUTTON_ATTACK
  | .FB_BUTTON_ATTACK2 => k.BUTTON_ATTACK2
  | .FB_BUTTON_ATTACK3 => k.BUTTON_ATTACK3
  | .FB_BUTTON_WALKING => k.BUTTON_WALKING
  | .FB_BUTTON_SPRINT => k.BUTTON_SPRINT
  | .FB_BUTTON_GESTURE => k.BUTTON_GESTURE
  | .FB_BUTTON_ACTIVATE => k.BUTTON_ACTIVATE

/-- The seven `BUTTON_*` numbers are pairwise different: every button has a
bit of its own in the mask. -/
def buttonBits.distinct (k : buttonBits) : Prop :=
  [k.BUTTON_ATTACK, k.BUTTON_ATTACK2, k.BUTTON_ATTACK3, k.BUTTON_WALKING,
    k.BUTTON_SPRINT, k.BUTTON_GESTURE, k.BUTTON_ACTIVATE].Nodup

instance (k : buttonBits) : Decidable k.distinct := by
  unfold buttonBits.distinct
  infer_instance

/-- Modelled from the spec: `weaponMode_t` is declared outside these
headers. The specification names the fire modes primary, secondary and tertiary,
which are the three case labels of `FireWeapon`; `other v` stands for every
further value a `weaponMode_t` can hold, which is what reaches the `default`
label. -/
inductive weaponMode_t where
  | WPM_PRIMARY
  | WPM_SECONDARY
  | WPM_TERTIARY
  | other (v : Nat)
deriving DecidableEq

/-! ## Engine helpers on the button bitmask -/

/-- Modelled from the spec: `usercmdPressButton` is an engine helper defined
outside these headers. The specification has the bot set a discrete
button intent in the button bitmask: the bit of the button is switched on. -/
def usercmdPressButton (buttons : Nat) (bit : Nat) : Nat :=
  buttons ||| (1 <<< bit)

/-- Modelled from the spec: `usercmdReleaseButton` is an engine helper defined
outside these headers. The specification has the bot clear a discrete
button intent in the button bitmask: the bit of the button is switched off
(and-not with the button's bit). -/
def usercmdReleaseButton (buttons : Nat) (bit : Nat) : Nat :=
  buttons ^^^ (buttons &&& (1 <<< bit))

/-- Modelled from the spec: `usercmdButtonPressed` is an engine helper defined
outside these headers. A button is pressed when its bit of the button
bitmask is on. -/
def usercmdButtonPressed (buttons : Nat) (bit : Nat) : Bool :=
  (buttons &&& (1 <<< bit)) != 0

/-- Modelled from the spec: the `ASSERT` macro is defined outside these
headers. The specification has a contract violation asserted (fatal) in a
development build and treated as a no-op in a production build: with
assertions compiled in, a false condition stops the program (`none`);
otherwise execution goes on. -/
def ASSERT (asserts : Bool) (cond : Bool) : Option Unit :=
  if asserts && !cond then none else some ()

/-- Conversion of an `int` to `signed char`: reduction modulo `2 ^ 8` into
`-128 .. 127`. -/
def toSignedChar (v : Int) : Int :=
  (v + 128) % 256 - 128

/-- The values a `signed char` holds. -/
def isSignedChar (v : Int) : Prop :=
  -128 ≤ v ∧ v ≤ 127

instance (v : Int) : Decidable (isSignedChar v) := by
  unfold isSignedChar
  infer_instance

/-! ## Members of `botMemory_t` -/

namespace botMemory_t

/-- Source: `inline void PressButton( FakeButton btn )
{ usercmdPressButton( m_cmdBuffer.buttons, btn ); }`. -/
def PressButton (k : buttonBits) (btn : FakeButton) (self : botMemory_t) : botMemory_t :=
  { self with m_cmdBuffer :=
      { self.m_cmdBuffer with
        buttons := usercmdPressButton self.m_cmdBuffer.buttons (btn.toBit k) } }

/-- Source: `inline void ReleaseButton( FakeButton btn )
{ usercmdReleaseButton( m_cmdBuffer.buttons, btn ); }`. -/
def ReleaseButton (k : buttonBits) (btn : FakeButton) (self : botMemory_t) : botMemory_t :=
  { self with m_cmdBuffer :=
      { self.m_cmdBuffer with
        buttons := usercmdReleaseButton self.m_cmdBuffer.buttons (btn.toBit k) } }

/-- Source: `inline bool ButtonPressed( FakeButton btn ) const
{ return usercmdButtonPressed( m_cmdBuffer.buttons, btn ); }`. -/
def ButtonPressed (k : buttonBits) (btn : FakeButton) (self : botMemory_t) : Bool :=
  usercmdButtonPressed self.m_cmdBuffer.buttons (btn.toBit k)

/-- Source: `inline void SetForwardSpeed( signed char speed )
{ m_cmdBuffer.forwardmove = speed; }`. The argument already is a
`signed char`. -/
def SetForwardSpeed (speed : Int) (self : botMemory_t) : botMemory_t :=
  { self with m_cmdBuffer := { self.m_cmdBuffer with forwardmove := speed } }

/-- Source: `inline void SetLateralSpeed( signed char speed )
{ m_cmdBuffer.rightmove = speed; }`. -/
def SetLateralSpeed (speed : Int) (self : botMemory_t) : botMemory_t :=
  { self with m_cmdBuffer := { self.m_cmdBuffer with rightmove := speed } }

/-- Source: `inline void SetVerticalSpeed( signed char speed )
{ m_cmdBuffer.upmove = speed; }`. -/
def SetVerticalSpeed (speed : Int) (self : botMemory_t) : botMemory_t :=
  { self with m_cmdBuffer := { self.m_cmdBuffer with upmove := speed } }

/-- Source: `inline void ReverseLateralSpeed( void )
{ m_cmdBuffer.rightmove = -m_cmdBuffer.rightmove; }`: the operand is promoted
to `int`, negated, and the result is narrowed to `signed char`. -/
def ReverseLateralSpeed (self : botMemory_t) : botMemory_t :=
  { self with m_cmdBuffer :=
      { self.m_cmdBuffer with rightmove := toSignedChar (-self.m_cmdBuffer.rightmove) } }

/-- Source: `inline void StopMoves( void ) { m_cmdBuffer.forwardmove = 0;
m_cmdBuffer.rightmove = 0; m_cmdBuffer.upmove = 0; }`. -/
def StopMoves (self : botMemory_t) : botMemory_t :=
  { self with m_cmdBuffer :=
      { self.m_cmdBuffer with forwardmove := 0, rightmove := 0, upmove := 0 } }

/-- Source: `inline void FireWeapon( weaponMode_t mode )`: a `switch` with one
case per fire mode, each pressing its own attack button, and a `default` that
holds `ASSERT( false && "Wrong mode used to FireWeapon" )`. `asserts` says
whether assertions are compiled in; `none` is the stopped program. -/
def FireWeapon (k : buttonBits) (asserts : Bool) (mode : weaponMode_t)
    (self : botMemory_t) : Option botMemory_t :=
  match mode with
  | .WPM_PRIMARY => some (PressButton k .FB_BUTTON_ATTACK self)
  | .WPM_SECONDARY => some (PressButton k .FB_BUTTON_ATTACK2 self)
  | .WPM_TERTIARY => some (PressButton k .FB_BUTTON_ATTACK3 self)
  | .other _ => (ASSERT asserts false).bind fun _ => some self

end botMemory_t

/-! ## Perception queue -/

/-- The `enum DeferredFreeingComponent::freeTime_t`. -/
inductive freeTime_t where
  | DONT_FREE
  | FREE_BEFORE_THINKING
  | FREE_AFTER_THINKING
deriving DecidableEq

/-- The integer value of an enumerator of `freeTime_t`: enumerators without
initialisers count from zero. -/
def freeTime_t.toInt : freeTime_t → Int
  | .DONT_FREE => 0
  | .FREE_BEFORE_THINKING => 1
  | .FREE_AFTER_THINKING => 2

/-- The `class DeferredFreeingComponent`: its one data member is
`int freeTime`. The constructor, `HandleFreeAt` and `GetFreeTime` are declared
in the header and defined outside it. -/
structure DeferredFreeingComponent where
  freeTime : Int
deriving DecidableEq

/-! ## Sample values -/

/-- A perception queue with every slot empty and both indices at zero. -/
def emptyQueue : enemyQueue_t :=
  { enemys := fun _ => { ent := none, timeFound := 0 }, front := 0, back := 0 }

/-- A command buffer with nothing pressed, no movement and level aim. -/
def idleCmd : usercmd_t :=
  { angles := (0, 0, 0), forwardmove := 0, rightmove := 0, upmove := 0, buttons := 0 }

/-- A bot memory around a given command buffer. -/
def memoryOf (cmd : usercmd_t) : botMemory_t :=
  { enemyQueue := emptyQueue, enemyLastSeen := 0, numRunningNodes := 0,
    futureAimTime := 0, futureAimTimeInterval := 0, m_cmdBuffer := cmd,
    lastThink := 0, stuckTime := 0, spawnTime := 0 }

/-- One assignment of pairwise different bit numbers to the seven buttons. -/
def sampleBits : buttonBits :=
  { BUTTON_ATTACK := 0, BUTTON_ATTACK2 := 8, BUTTON_ATTACK3 := 9, BUTTON_WALKING := 4,
    BUTTON_SPRINT := 5, BUTTON_GESTURE := 3, BUTTON_ACTIVATE := 6 }

/-! ## Bit-level facts about the helpers -/

theorem usercmdButtonPressed_eq_testBit (buttons bit : Nat) :
    usercmdButtonPressed buttons bit = buttons.testBit bit := by
  unfold usercmdButtonPressed
  rw [Nat.one_shiftLeft]
  by_cases h : buttons.testBit bit
  · rw [h]
    have hne : buttons &&& 2 ^ bit ≠ 0 := by
      intro h0
      have := congrArg (fun n => Nat.testBit n bit) h0
      simp [Nat.testBit_two_pow_self, h] at this
    simpa using hne
  · have hf : buttons.testBit bit = false := by simpa using h
    rw [hf]
    have h0 : buttons &&& 2 ^ bit = 0 := by
      apply Nat.eq_of_testBit_eq
      intro i
      by_cases hi : bit = i
      · subst hi
        simp [hf]
      · simp [Nat.testBit_two_pow_of_ne hi]
    simp [h0]

theorem testBit_usercmdPressButton (buttons bit i : Nat) :
    (usercmdPressButton buttons bit).testBit i = (buttons.testBit i || decide (bit = i)) := by
  unfold usercmdPressButton
  rw [Nat.one_shiftLeft, Nat.testBit_or, Nat.testBit_two_pow]

theorem testBit_usercmdReleaseButton (buttons bit i : Nat) :
    (usercmdReleaseButton buttons bit).testBit i = (buttons.testBit i && !decide (bit = i)) := by
  unfold usercmdReleaseButton
  rw [Nat.one_shiftLeft, Nat.testBit_xor, Nat.testBit_and, Nat.testBit_two_pow]
  cases buttons.testBit i <;> cases decide (bit = i) <;> rfl

theorem usercmdPressButton_eq_self_iff (buttons bit : Nat) :
    usercmdPressButton buttons bit = buttons ↔ buttons.testBit bit = true := by
  constructor
  · intro h
    have hb := testBit_usercmdPressButton buttons bit bit
    rw [h] at hb
    simpa using hb
  · intro h
    apply Nat.eq_of_testBit_eq
    intro i
    rw [testBit_usercmdPressButton]
    by_cases hi : bit = i
    · subst hi
      simp [h]
    · simp [hi]

theorem usercmdReleaseButton_eq_self_iff (buttons bit : Nat) :
    usercmdReleaseButton buttons bit = buttons ↔ buttons.testBit bit = false := by
  constructor
  · intro h
    have hb := testBit_usercmdReleaseButton buttons bit bit
    rw [h] at hb
    simpa using hb
  · intro h
    apply Nat.eq_of_testBit_eq
    intro i
    rw [testBit_usercmdReleaseButton]
    by_cases hi : bit = i
    · subst hi
      simp [h]
    · simp [hi]

theorem FakeButton.toBit_ne (k : buttonBits) (hk : k.distinct) {b c : FakeButton}
    (hbc : b ≠ c) : b.toBit k ≠ c.toBit k := by
  unfold buttonBits.distinct at hk
  simp only [List.nodup_cons, List.mem_cons, List.mem_singleton, not_or, List.not_mem_nil,
    not_false_eq_true, List.nodup_nil, and_true] at hk
  obtain ⟨⟨h12, h13, h14, h15, h16, h17⟩, ⟨h23, h24, h25, h26, h27⟩, ⟨h34, h35, h36, h37⟩,
    ⟨h45, h46, h47⟩, ⟨h56, h57⟩, h67⟩ := hk
  cases b <;> cases c <;> simp only [FakeButton.toBit] <;>
    first
      | exact absurd rfl hbc
      | assumption
      | (apply Ne.symm; assumption)

namespace botMemory_t

/-! ## How the three button members act on the buffer -/

theorem PressButton_eq_self_iff (k : buttonBits) (b : FakeButton) (m : botMemory_t) :
    PressButton k b m = m ↔ ButtonPressed k b m = true := by
  unfold ButtonPressed
  rw [usercmdButtonPressed_eq_testBit, ← usercmdPressButton_eq_self_iff]
  obtain ⟨q, a1, a2, a3, a4, ⟨ang, f, r, u, btn⟩, a5, a6, a7⟩ := m
  simp [PressButton]

theorem ReleaseButton_eq_self_iff (k : buttonBits) (b : FakeButton) (m : botMemory_t) :
    ReleaseButton k b m = m ↔ ButtonPressed k b m = false := by
  unfold ButtonPressed
  rw [usercmdButtonPressed_eq_testBit, ← usercmdReleaseButton_eq_self_iff]
  obtain ⟨q, a1, a2, a3, a4, ⟨ang, f, r, u, btn⟩, a5, a6, a7⟩ := m
  simp [ReleaseButton]

theorem ButtonPressed_PressButton (k : buttonBits) (b c : FakeButton) (m : botMemory_t) :
    ButtonPressed k c (PressButton k b m) =
      (ButtonPressed k c m || decide (b.toBit k = c.toBit k)) := by
  simp only [ButtonPressed, PressButton, usercmdButtonPressed_eq_testBit,
    testBit_usercmdPressButton]

theorem ButtonPressed_ReleaseButton (k : buttonBits) (b c : FakeButton) (m : botMemory_t) :
    ButtonPressed k c (ReleaseButton k b m) =
      (ButtonPressed k c m && !decide (b.toBit k = c.toBit k)) := by
  simp only [ButtonPressed, ReleaseButton, usercmdButtonPressed_eq_testBit,
    testBit_usercmdReleaseButton]

theorem ButtonPressed_PressButton_self (k : buttonBits) (b : FakeButton) (m : botMemory_t) :
    ButtonPressed k b (PressButton k b m) = true := by
  rw [ButtonPressed_PressButton]
  simp

theorem ButtonPressed_ReleaseButton_self (k : buttonBits) (b : FakeButton) (m : botMemory_t) :
    ButtonPressed k b (ReleaseButton k b m) = false := by
  rw [ButtonPressed_ReleaseButton]
  simp

theorem ButtonPressed_PressButton_of_ne (k : buttonBits) (hk : k.distinct) {b c : FakeButton}
    (hbc : b ≠ c) (m : botMemory_t) :
    ButtonPressed k c (PressButton k b m) = ButtonPressed k c m := by
  rw [ButtonPressed_PressButton]
  simp [FakeButton.toBit_ne k hk hbc]

theorem ButtonPressed_ReleaseButton_of_ne (k : buttonBits) (hk : k.distinct) {b c : FakeButton}
    (hbc : b ≠ c) (m : botMemory_t) :
    ButtonPressed k c (ReleaseButton k b m) = ButtonPressed k c m := by
  rw [ButtonPressed_ReleaseButton]
  simp [FakeButton.toBit_ne k hk hbc]

/-! ## Press and release are idempotent -/

/-- C1: for every command buffer and every button `b`, when `ButtonPressed(b)`
holds `PressButton(b)` changes nothing at all (the whole bot memory, hence the
whole button state, is as before); and pressing `b` twice gives the same state
as pressing it once. -/
theorem PressButton_idempotent (k : buttonBits) (b : FakeButton) (m : botMemory_t) :
    (ButtonPressed k b m = true → PressButton k b m = m) ∧
      PressButton k b (PressButton k b m) = PressButton k b m :=
  ⟨(PressButton_eq_self_iff k b m).mpr,
    (PressButton_eq_self_iff k b (PressButton k b m)).mpr (ButtonPressed_PressButton_self k b m)⟩

/-- C1 at a concrete buffer: with the attack button (bit 0) already down,
pressing it again returns the same memory. -/
theorem PressButton_idempotent_witness :
    ButtonPressed sampleBits .FB_BUTTON_ATTACK (memoryOf { idleCmd with buttons := 1 }) = true ∧
      PressButton sampleBits .FB_BUTTON_ATTACK (memoryOf { idleCmd with buttons := 1 }) =
        memoryOf { idleCmd with buttons := 1 } :=
  ⟨by decide,
    (PressButton_idempotent sampleBits .FB_BUTTON_ATTACK (memoryOf { idleCmd with buttons := 1 })).1
      (by decide)⟩

/-- C2: for every command buffer and every button `b`, when `ButtonPressed(b)`
is false `ReleaseButton(b)` changes nothing at all (the whole bot memory, hence
the whole button state, is as before); and releasing `b` twice gives the same
state as releasing it once. -/
theorem ReleaseButton_idempotent (k : buttonBits) (b : FakeButton) (m : botMemory_t) :
    (ButtonPressed k b m = false → ReleaseButton k b m = m) ∧
      ReleaseButton k b (ReleaseButton k b m) = ReleaseButton k b m :=
  ⟨(ReleaseButton_eq_self_iff k b m).mpr,
    (ReleaseButton_eq_self_iff k b (ReleaseButton k b m)).mpr
      (ButtonPressed_ReleaseButton_self k b m)⟩

/-- C2 at a concrete buffer: with only the attack button (bit 0) down,
releasing the sprint button (bit 5) returns the same memory. -/
theorem ReleaseButton_idempotent_witness :
    ButtonPressed sampleBits .FB_BUTTON_SPRINT (memoryOf { idleCmd with buttons := 1 }) = false ∧
      ReleaseButton sampleBits .FB_BUTTON_SPRINT (memoryOf { idleCmd with buttons := 1 }) =
        memoryOf { idleCmd with buttons := 1 } :=
  ⟨by decide,
    (ReleaseButton_idempotent sampleBits .FB_BUTTON_SPRINT
      (memoryOf { idleCmd with buttons := 1 })).1 (by decide)⟩

/-! ## Frame of press and release -/

/-- C8: for every command buffer and every two distinct buttons `b` and `c`
(the `BUTTON_*` numbers being pairwise different), `PressButton(b)` and
`ReleaseButton(b)` leave `ButtonPressed(c)` as it was; after `PressButton(b)`
the button `b` is pressed and after `ReleaseButton(b)` it is not; and neither
changes the three movement axes or the aim angles. -/
theorem PressButton_ReleaseButton_frame (k : buttonBits) (hk : k.distinct)
    (b c : FakeButton) (hbc : b ≠ c) (m : botMemory_t) :
    (ButtonPressed k c (PressButton k b m) = ButtonPressed k c m ∧
      ButtonPressed k c (ReleaseButton k b m) = ButtonPressed k c m) ∧
    (ButtonPressed k b (PressButton k b m) = true ∧
      ButtonPressed k b (ReleaseButton k b m) = false) ∧
    ((PressButton k b m).m_cmdBuffer.forwardmove = m.m_cmdBuffer.forwardmove ∧
      (PressButton k b m).m_cmdBuffer.rightmove = m.m_cmdBuffer.rightmove ∧
      (PressButton k b m).m_cmdBuffer.upmove = m.m_cmdBuffer.upmove ∧
      (PressButton k b m).m_cmdBuffer.angles = m.m_cmdBuffer.angles) ∧
    ((ReleaseButton k b m).m_cmdBuffer.forwardmove = m.m_cmdBuffer.forwardmove ∧
      (ReleaseButton k b m).m_cmdBuffer.rightmove = m.m_cmdBuffer.rightmove ∧
      (ReleaseButton k b m).m_cmdBuffer.upmove = m.m_cmdBuffer.upmove ∧
      (ReleaseButton k b m).m_cmdBuffer.angles = m.m_cmdBuffer.angles) :=
  ⟨⟨ButtonPressed_PressButton_of_ne k hk hbc m, ButtonPressed_ReleaseButton_of_ne k hk hbc m⟩,
    ⟨ButtonPressed_PressButton_self k b m, ButtonPressed_ReleaseButton_self k b m⟩,
    ⟨rfl, rfl, rfl, rfl⟩, ⟨rfl, rfl, rfl, rfl⟩⟩

/-- C8 at a concrete buffer: sprint (bit 5) is down and the bot strafes; the
attack button (bit 0) is pressed and released next to it. -/
theorem PressButton_ReleaseButton_frame_witness :
    sampleBits.distinct ∧ FakeButton.FB_BUTTON_ATTACK ≠ FakeButton.FB_BUTTON_SPRINT ∧
      ButtonPressed sampleBits .FB_BUTTON_SPRINT
        (PressButton sampleBits .FB_BUTTON_ATTACK
          (memoryOf { idleCmd with rightmove := 127, buttons := 32 })) = true ∧
      ButtonPressed sampleBits .FB_BUTTON_SPRINT
        (ReleaseButton sampleBits .FB_BUTTON_ATTACK
          (memoryOf { idleCmd with rightmove := 127, buttons := 32 })) = true :=
  ⟨by decide, by decide,
    ((PressButton_ReleaseButton_frame sampleBits (by decide) .FB_BUTTON_ATTACK .FB_BUTTON_SPRINT
      (by decide) (memoryOf { idleCmd with rightmove := 127, buttons := 32 })).1.1).trans
      (by decide),
    ((PressButton_ReleaseButton_frame sampleBits (by decide) .FB_BUTTON_ATTACK .FB_BUTTON_SPRINT
      (by decide) (memoryOf { idleCmd with rightmove := 127, buttons := 32 })).1.2).trans
      (by decide)⟩

/-! ## FireWeapon -/

/-- C3: `FireWeapon` presses the button of the mode it is given and no other
attack button. For every command buffer, in either build, and with the
`BUTTON_*` numbers pairwise different: `FireWeapon(WPM_PRIMARY)` returns with
`FB_BUTTON_ATTACK` pressed, `FireWeapon(WPM_SECONDARY)` with
`FB_BUTTON_ATTACK2` pressed, `FireWeapon(WPM_TERTIARY)` with
`FB_BUTTON_ATTACK3` pressed, and each time the two other attack buttons are
pressed exactly when they were before the call. -/
theorem FireWeapon_presses_own_button (k : buttonBits) (hk : k.distinct) (asserts : Bool)
    (m : botMemory_t) :
    (∃ m1, FireWeapon k asserts .WPM_PRIMARY m = some m1 ∧
      ButtonPressed k .FB_BUTTON_ATTACK m1 = true ∧
      ButtonPressed k .FB_BUTTON_ATTACK2 m1 = ButtonPressed k .FB_BUTTON_ATTACK2 m ∧
      ButtonPressed k .FB_BUTTON_ATTACK3 m1 = ButtonPressed k .FB_BUTTON_ATTACK3 m) ∧
    (∃ m2, FireWeapon k asserts .WPM_SECONDARY m = some m2 ∧
      ButtonPressed k .FB_BUTTON_ATTACK2 m2 = true ∧
      ButtonPressed k .FB_BUTTON_ATTACK m2 = ButtonPressed k .FB_BUTTON_ATTACK m ∧
      ButtonPressed k .FB_BUTTON_ATTACK3 m2 = ButtonPressed k .FB_BUTTON_ATTACK3 m) ∧
    (∃ m3, FireWeapon k asserts .WPM_TERTIARY m = some m3 ∧
      ButtonPressed k .FB_BUTTON_ATTACK3 m3 = true ∧
      ButtonPressed k .FB_BUTTON_ATTACK m3 = ButtonPressed k .FB_BUTTON_ATTACK m ∧
      ButtonPressed k .FB_BUTTON_ATTACK2 m3 = ButtonPressed k .FB_BUTTON_ATTACK2 m) :=
  ⟨⟨_, rfl, ButtonPressed_PressButton_self k _ m,
      ButtonPressed_PressButton_of_ne k hk (by decide) m,
      ButtonPressed_PressButton_of_ne k hk (by decide) m⟩,
    ⟨_, rfl, ButtonPressed_PressButton_self k _ m,
      ButtonPressed_PressButton_of_ne k hk (by decide) m,
      ButtonPressed_PressButton_of_ne k hk (by decide) m⟩,
    ⟨_, rfl, ButtonPressed_PressButton_self k _ m,
      ButtonPressed_PressButton_of_ne k hk (by decide) m,
      ButtonPressed_PressButton_of_ne k hk (by decide) m⟩⟩

/-- C3 at a concrete buffer: with the secondary attack (bit 8) already down, a
primary shot leaves bits 0 and 8 on and bit 9 off. -/
theorem FireWeapon_presses_own_button_witness :
    sampleBits.distinct ∧
      ∃ m1, FireWeapon sampleBits true .WPM_PRIMARY (memoryOf { idleCmd with buttons := 256 }) =
          some m1 ∧
        ButtonPressed sampleBits .FB_BUTTON_ATTACK m1 = true ∧
        ButtonPressed sampleBits .FB_BUTTON_ATTACK2 m1 = true ∧
        ButtonPressed sampleBits .FB_BUTTON_ATTACK3 m1 = false :=
  ⟨by decide,
    match (FireWeapon_presses_own_button sampleBits (by decide) true
      (memoryOf { idleCmd with buttons := 256 })).1 with
    | ⟨m1, h, h1, h2, h3⟩ => ⟨m1, h, h1, h2.trans (by decide), h3.trans (by decide)⟩⟩

/-- C4: in a release build (assertions compiled out), for every command buffer
and every `weaponMode_t` value other than `WPM_PRIMARY`, `WPM_SECONDARY` and
`WPM_TERTIARY`, `FireWeapon(mode)` returns with the bot memory exactly as it
was: buttons, movement axes and aim angles are unchanged. -/
theorem FireWeapon_release_other_mode (k : buttonBits) (mode : weaponMode_t) (m : botMemory_t)
    (hP : mode ≠ .WPM_PRIMARY) (hS : mode ≠ .WPM_SECONDARY) (hT : mode ≠ .WPM_TERTIARY) :
    FireWeapon k false mode m = some m := by
  cases mode with
  | WPM_PRIMARY => exact absurd rfl hP
  | WPM_SECONDARY => exact absurd rfl hS
  | WPM_TERTIARY => exact absurd rfl hT
  | other v => rfl

/-- C4 at a concrete buffer: mode value `other 0` on a buffer with sprint down
and forward speed 100. -/
theorem FireWeapon_release_other_mode_witness :
    FireWeapon sampleBits false (.other 0)
        (memoryOf { idleCmd with forwardmove := 100, buttons := 32 }) =
      some (memoryOf { idleCmd with forwardmove := 100, buttons := 32 }) :=
  FireWeapon_release_other_mode sampleBits (.other 0)
    (memoryOf { idleCmd with forwardmove := 100, buttons := 32 })
    (by decide) (by decide) (by decide)

/-- In a development build a mode outside the three case labels stops the
program at the assertion. -/
theorem FireWeapon_debug_other_mode (k : buttonBits) (v : Nat) (m : botMemory_t) :
    FireWeapon k true (.other v) m = none :=
  rfl

/-- C9: for every command buffer, `StopMoves` sets `forwardmove`, `rightmove`
and `upmove` to 0 and leaves buttons and aim angles unchanged; it equals
`SetForwardSpeed(0)`, `SetLateralSpeed(0)` and `SetVerticalSpeed(0)` applied
in each of the six orders; and each of the three setters, for every speed,
writes its own axis and leaves the two other axes, the buttons and the angles
unchanged. -/
theorem StopMoves_eq_setters (m : botMemory_t) :
    ((StopMoves m).m_cmdBuffer.forwardmove = 0 ∧ (StopMoves m).m_cmdBuffer.rightmove = 0 ∧
      (StopMoves m).m_cmdBuffer.upmove = 0 ∧
      (StopMoves m).m_cmdBuffer.buttons = m.m_cmdBuffer.buttons ∧
      (StopMoves m).m_cmdBuffer.angles = m.m_cmdBuffer.angles) ∧
    (StopMoves m = SetVerticalSpeed 0 (SetLateralSpeed 0 (SetForwardSpeed 0 m)) ∧
      StopMoves m = SetLateralSpeed 0 (SetVerticalSpeed 0 (SetForwardSpeed 0 m)) ∧
      StopMoves m = SetVerticalSpeed 0 (SetForwardSpeed 0 (SetLateralSpeed 0 m)) ∧
      StopMoves m = SetForwardSpeed 0 (SetVerticalSpeed 0 (SetLateralSpeed 0 m)) ∧
      StopMoves m = SetLateralSpeed 0 (SetForwardSpeed 0 (SetVerticalSpeed 0 m)) ∧
      StopMoves m = SetForwardSpeed 0 (SetLateralSpeed 0 (SetVerticalSpeed 0 m))) ∧
    (∀ s : Int,
      ((SetForwardSpeed s m).m_cmdBuffer.forwardmove = s ∧
        (SetForwardSpeed s m).m_cmdBuffer.rightmove = m.m_cmdBuffer.rightmove ∧
        (SetForwardSpeed s m).m_cmdBuffer.upmove = m.m_cmdBuffer.upmove ∧
        (SetForwardSpeed s m).m_cmdBuffer.buttons = m.m_cmdBuffer.buttons ∧
        (SetForwardSpeed s m).m_cmdBuffer.angles = m.m_cmdBuffer.angles) ∧
      ((SetLateralSpeed s m).m_cmdBuffer.rightmove = s ∧
        (SetLateralSpeed s m).m_cmdBuffer.forwardmove = m.m_cmdBuffer.forwardmove ∧
        (SetLateralSpeed s m).m_cmdBuffer.upmove = m.m_cmdBuffer.upmove ∧
        (SetLateralSpeed s m).m_cmdBuffer.buttons = m.m_cmdBuffer.buttons ∧
        (SetLateralSpeed s m).m_cmdBuffer.angles = m.m_cmdBuffer.angles) ∧
      ((SetVerticalSpeed s m).m_cmdBuffer.upmove = s ∧
        (SetVerticalSpeed s m).m_cmdBuffer.forwardmove = m.m_cmdBuffer.forwardmove ∧
        (SetVerticalSpeed s m).m_cmdBuffer.rightmove = m.m_cmdBuffer.rightmove ∧
        (SetVerticalSpeed s m).m_cmdBuffer.buttons = m.m_cmdBuffer.buttons ∧
        (SetVerticalSpeed s m).m_cmdBuffer.angles = m.m_cmdBuffer.angles)) :=
  ⟨⟨rfl, rfl, rfl, rfl, rfl⟩, ⟨rfl, rfl, rfl, rfl, rfl, rfl⟩,
    fun _ => ⟨⟨rfl, rfl, rfl, rfl, rfl⟩, ⟨rfl, rfl, rfl, rfl, rfl⟩, ⟨rfl, rfl, rfl, rfl, rfl⟩⟩⟩

/-- C10: with `rightmove` a `signed char`, `ReverseLateralSpeed` leaves
`forwardmove`, `upmove`, buttons and angles unchanged and keeps `rightmove` a
`signed char`; for every value from -127 to 127 the new `rightmove` is the
negation of the old one; for -128 one call leaves `rightmove` at -128; and two
calls give back the original bot memory for every value, -128 included. -/
theorem ReverseLateralSpeed_negates (m : botMemory_t)
    (h : isSignedChar m.m_cmdBuffer.rightmove) :
    ((ReverseLateralSpeed m).m_cmdBuffer.forwardmove = m.m_cmdBuffer.forwardmove ∧
      (ReverseLateralSpeed m).m_cmdBuffer.upmove = m.m_cmdBuffer.upmove ∧
      (ReverseLateralSpeed m).m_cmdBuffer.buttons = m.m_cmdBuffer.buttons ∧
      (ReverseLateralSpeed m).m_cmdBuffer.angles = m.m_cmdBuffer.angles ∧
      isSignedChar (ReverseLateralSpeed m).m_cmdBuffer.rightmove) ∧
    (-127 ≤ m.m_cmdBuffer.rightmove →
      (ReverseLateralSpeed m).m_cmdBuffer.rightmove = -m.m_cmdBuffer.rightmove) ∧
    (m.m_cmdBuffer.rightmove = -128 →
      (ReverseLateralSpeed m).m_cmdBuffer.rightmove = -128) ∧
    ReverseLateralSpeed (ReverseLateralSpeed m) = m := by
  obtain ⟨q, a1, a2, a3, a4, ⟨ang, f, r, u, btn⟩, a5, a6, a7⟩ := m
  have hr : -128 ≤ r ∧ r ≤ 127 := h
  have h2 : toSignedChar (-toSignedChar (-r)) = r := by
    unfold toSignedChar
    omega
  refine ⟨⟨rfl, rfl, rfl, rfl, ?_⟩, ?_, ?_, ?_⟩
  · show -128 ≤ toSignedChar (-r) ∧ toSignedChar (-r) ≤ 127
    unfold toSignedChar
    omega
  · intro h1
    show toSignedChar (-r) = -r
    have h1' : -127 ≤ r := h1
    unfold toSignedChar
    omega
  · intro h1
    show toSignedChar (-r) = -128
    have h1' : r = -128 := h1
    unfold toSignedChar
    omega
  · simp only [ReverseLateralSpeed, h2]

/-- C10 at the value that cannot be negated: from `rightmove = -128` one call
returns -128 again and two calls return the original memory. -/
theorem ReverseLateralSpeed_negates_witness :
    isSignedChar (memoryOf { idleCmd with rightmove := -128 }).m_cmdBuffer.rightmove ∧
      (ReverseLateralSpeed (memoryOf { idleCmd with rightmove := -128 })).m_cmdBuffer.rightmove =
        -128 ∧
      ReverseLateralSpeed (ReverseLateralSpeed (memoryOf { idleCmd with rightmove := -128 })) =
        memoryOf { idleCmd with rightmove := -128 } :=
  ⟨by decide,
    (ReverseLateralSpeed_negates (memoryOf { idleCmd with rightmove := -128 })
      (by decide)).2.2.1 rfl,
    (ReverseLateralSpeed_negates (memoryOf { idleCmd with rightmove := -128 })
      (by decide)).2.2.2⟩

end botMemory_t

/-! ## Perception queue: `back - front (mod 32)` against the number held -/

/-- The three enumerators of `freeTime_t` have the values 0, 1 and 2, and
different enumerators have different values. -/
theorem freeTime_t.toInt_values (a b : freeTime_t) :
    (a.toInt = 0 ∨ a.toInt = 1 ∨ a.toInt = 2) ∧ (a.toInt = b.toInt → a = b) := by
  cases a <;> cases b <;> simp [freeTime_t.toInt]

end Unvanquished
